import Mathlib

/-!
A shallow embedding of the Mesophy Raspberry Pi signage client
(directory src/3rd-attempt-pi-client): the device state machine of
lib/state_manager.py, the content cache of lib/content_manager.py, the
command dispatcher of lib/command_executor.py and the pairing handler of
pi-client.py.  Effects are made explicit: the file system and the
persisted cache index are data, gateway calls and media downloads are
oracles passed as arguments, wall-clock readings are arguments, and the
calls that would rewrite the index file or report a command status are
recorded in the state so that theorems can speak about them.
-/

deriving instance DecidableEq for Except

namespace Mesophy

/-- The on-disk media files, as a finite map from absolute path to byte
size.  os.path.exists and os.path.getsize read it; downloads write it and
eviction removes from it. -/
abbrev FileSystem := List (String × Nat)

/-- Model of os.path.exists. -/
def fileExists (fs : FileSystem) (p : String) : Bool :=
  fs.any (fun e => e.1 == p)

/-- Model of os.path.getsize (0 for a missing file; the code only calls
it on paths it has just checked or written). -/
def getsize (fs : FileSystem) (p : String) : Nat :=
  ((fs.find? (fun e => e.1 == p)).map (fun e => e.2)).getD 0

/-- Writing a file, replacing any previous file at the same path. -/
def fileWrite (fs : FileSystem) (p : String) (n : Nat) : FileSystem :=
  (p, n) :: fs.filter (fun e => e.1 != p)

/-- Model of os.remove. -/
def fileRemove (fs : FileSystem) (p : String) : FileSystem :=
  fs.filter (fun e => e.1 != p)

/-- A Python dict with string keys, as an insertion-ordered association
list (Python dicts preserve insertion order and have unique keys). -/
abbrev Dict (α : Type) := List (String × α)

/-- Python d.get(k). -/
def dictGet {α : Type} (d : Dict α) (k : String) : Option α :=
  (d.find? (fun e => e.1 == k)).map (fun e => e.2)

/-- Python assignment d[k] = v: in-place update when the key exists
(keeping its position), append otherwise. -/
def dictSet {α : Type} (d : Dict α) (k : String) (v : α) : Dict α :=
  if (d.find? (fun e => e.1 == k)).isSome then
    d.map (fun e => if e.1 == k then (k, v) else e)
  else d ++ [(k, v)]

/-- Python del d[k]. -/
def dictDel {α : Type} (d : Dict α) (k : String) : Dict α :=
  d.filter (fun e => e.1 != k)

/-- A cache index entry (a value of ContentManager.cache_info).  The
code stores downloaded_at as an ISO-8601 string and compares such
strings lexicographically, which agrees with chronological order, so
timestamps are modelled as naturals. -/
structure CacheEntry where
  local_path : String
  filename : String
  type : String
  size : Nat
  downloaded_at : Nat
  url_hash : String
deriving DecidableEq

/-- A media item as produced by APIClient.get_media_list (keys id, url,
type, filename, duration; the id is stringified wherever it is used as a
cache key). -/
structure MediaItem where
  id : String
  url : String
  type : String
  filename : String
  duration : Nat
deriving DecidableEq

/-- An element of ContentManager.current_playlist. -/
structure PlaylistItem where
  id : String
  path : String
  type : String
  filename : String
  duration : Nat
deriving DecidableEq

/-- The mutable state of a ContentManager together with the cache
directory contents.  saves counts the calls to _save_cache_info (each
one a rewrite of the persisted cache_info.json); downloads lists the
URLs fetched by successful api.download_media calls. -/
structure CMState where
  cache_info : Dict CacheEntry
  files : FileSystem
  current_playlist : List PlaylistItem
  current_index : Nat
  saves : Nat
  downloads : List String
deriving DecidableEq

/-- The cache_dir default used throughout src/3rd-attempt-pi-client. -/
def cache_dir : String := "/opt/mesophy/content"

/-- Model of os.path.join for the always-relative second argument. -/
def path_join (a b : String) : String := a ++ "/" ++ b

/-- Model of hashlib.md5(media_url.encode()).hexdigest().  The code
consumes the digest only through equality tests, so an injective
encoding is a faithful model of those tests (up to md5 collisions). -/
def md5_hexdigest (s : String) : String := "md5:" ++ s

/-- The characters replaced by _sanitize_filename. -/
def unsafe_chars : List Char := ['<', '>', ':', '"', '/', '\\', '|', '?', '*']

/-- Model of os.path.splitext: split at the last dot, unless everything
before that dot is itself a dot. -/
def splitext (s : String) : String × String :=
  let cs := s.toList
  let n := (cs.reverse.takeWhile (fun c => c ≠ '.')).length
  if n = cs.length then (s, "")
  else
    let cut := cs.length - n - 1
    if (cs.take cut).all (fun c => c = '.') then (s, "")
    else (String.mk (cs.take cut), String.mk (cs.drop cut))

/-- Model of ContentManager._sanitize_filename: replace unsafe
characters with an underscore, then truncate to name[:90] + ext when the
result is longer than 100 characters. -/
def _sanitize_filename (filename : String) : String :=
  let f := String.mk (filename.toList.map (fun c => if c ∈ unsafe_chars then '_' else c))
  if f.length > 100 then
    let pair := splitext f
    String.mk (pair.1.toList.take 90) ++ pair.2
  else f

/-- The local cache filename of a media item,
f"(media_id)_(sanitized filename)". -/
def item_local_filename (m : MediaItem) : String :=
  m.id ++ "_" ++ _sanitize_filename m.filename

/-- The local cache path of a media item. -/
def item_local_path (m : MediaItem) : String :=
  path_join cache_dir (item_local_filename m)

/-- Python truthiness of an optional string (None and "" are falsy). -/
def pyTruthy : Option String → Bool
  | none => false
  | some s => !s.isEmpty

/-- Model of ContentManager._is_cached_and_current. -/
def _is_cached_and_current (st : CMState) (m : MediaItem) (local_path : String) : Bool :=
  if !(fileExists st.files local_path) then false
  else
    match dictGet st.cache_info m.id with
    | none => false
    | some ce =>
      if !(ce.url_hash == md5_hexdigest m.url) then false
      else fileExists st.files ce.local_path

/-- Model of ContentManager._download_media_item.  dl is the
api.download_media oracle (some written-file size on success, none on a
failed download); now is datetime.utcnow().  All exceptions inside the
source function are caught and turned into the False return. -/
def _download_media_item (dl : String → Option Nat) (now : Nat) (st : CMState)
    (m : MediaItem) : Bool × CMState :=
  let local_filename := item_local_filename m
  let local_path := path_join cache_dir local_filename
  if _is_cached_and_current st m local_path then
    (false, st)
  else
    match dl m.url with
    | some sz =>
      let fs := fileWrite st.files local_path sz
      let entry : CacheEntry :=
        { local_path := local_path, filename := local_filename, type := m.type,
          size := getsize fs local_path, downloaded_at := now,
          url_hash := md5_hexdigest m.url }
      (true, { st with
               files := fs,
               cache_info := dictSet st.cache_info m.id entry,
               downloads := st.downloads ++ [m.url],
               saves := st.saves + 1 })
    | none => (false, st)

/-- The download loop of sync_content (the downloaded_any flag of the
source is never read afterwards and is dropped). -/
def download_all (dl : String → Option Nat) (now : Nat) (L : List MediaItem)
    (st : CMState) : CMState :=
  L.foldl (fun s m => (_download_media_item dl now s m).2) st

/-- One iteration of the loop of ContentManager._build_playlist. -/
def _build_step (acc : List PlaylistItem × CMState) (m : MediaItem) :
    List PlaylistItem × CMState :=
  match dictGet acc.2.cache_info m.id with
  | none => acc
  | some ce =>
    if fileExists acc.2.files ce.local_path then
      let item : PlaylistItem :=
        { id := m.id, path := ce.local_path, type := m.type, filename := ce.filename,
          duration := m.duration }
      if !(m.type == ce.type) then
        (acc.1 ++ [item],
         { acc.2 with
           cache_info := dictSet acc.2.cache_info m.id { ce with type := m.type },
           saves := acc.2.saves + 1 })
      else (acc.1 ++ [item], acc.2)
    else acc

/-- Model of ContentManager._build_playlist. -/
def _build_playlist (L : List MediaItem) (st : CMState) : List PlaylistItem × CMState :=
  L.foldl _build_step ([], st)

/-- An element of the eviction working list built by _cleanup_cache:
media id, cache entry, on-disk size. -/
abbrev EvictItem := String × CacheEntry × Nat

/-- The collection pass of _cleanup_cache: the indexed entries whose
file exists, in index order, paired with their on-disk sizes. -/
def existing_items (st : CMState) : List EvictItem :=
  st.cache_info.filterMap (fun e =>
    if fileExists st.files e.2.local_path then
      some (e.1, e.2, getsize st.files e.2.local_path)
    else none)

/-- Aggregate on-disk size of the indexed entries whose files exist. -/
def existing_total (st : CMState) : Nat :=
  ((existing_items st).map (fun t => t.2.2)).sum

/-- The id/entry part of an eviction item. -/
def evict_kep (t : EvictItem) : String × CacheEntry := (t.1, t.2.1)

/-- The recorded on-disk size of an eviction item. -/
def evict_size (t : EvictItem) : Nat := t.2.2

/-- The sort key of the eviction pass: ascending downloaded_at. -/
def evict_le (a b : EvictItem) : Prop :=
  a.2.1.downloaded_at ≤ b.2.1.downloaded_at

instance : DecidableRel evict_le := fun x y => Nat.decLe x.2.1.downloaded_at y.2.1.downloaded_at

instance : IsTotal EvictItem evict_le := ⟨fun x y => Nat.le_total x.2.1.downloaded_at y.2.1.downloaded_at⟩

instance : IsTrans EvictItem evict_le := ⟨fun _ _ _ => Nat.le_trans⟩

/-- The removal loop of _cleanup_cache: walk the age-sorted items and,
while the running total exceeds the budget, delete the file and the
index entry and subtract the size. -/
def evict_loop (maxB : Nat) : List EvictItem → Nat → CMState → CMState
  | [], _, st => st
  | t :: rest, total, st =>
    if total ≤ maxB then st
    else
      evict_loop maxB rest (total - t.2.2)
        { st with
          files := fileRemove st.files t.2.1.local_path,
          cache_info := dictDel st.cache_info t.1 }

/-- Model of ContentManager._cleanup_cache, parametrised by the byte
budget maxB (the source fixes it to max_cache_size_mb * 1024 * 1024 with
max_cache_size_mb = 1000, see default_max_size_bytes).  Python list.sort
is a stable sort; List.insertionSort over the total preorder evict_le is
the same stable sort.  The trailing _save_cache_info call happens only
inside the over-budget branch, as in the source. -/
def _cleanup_cache (maxB : Nat) (st : CMState) : CMState :=
  let total := ((existing_items st).map (fun t => t.2.2)).sum
  if total > maxB then
    let sorted := List.insertionSort evict_le (existing_items st)
    let st1 := evict_loop maxB sorted total st
    { st1 with saves := st1.saves + 1 }
  else st

/-- The production byte budget: 1000 MB. -/
def default_max_size_bytes : Nat := 1000 * 1024 * 1024

/-- Invariant of the eviction loop: the working list is an exact
snapshot of the index (as a permutation), every listed file exists with
the recorded size, and ids and paths are pairwise distinct. -/
def GoodRem (rem : List EvictItem) (st : CMState) : Prop :=
  st.cache_info.Perm (rem.map evict_kep) ∧
  (∀ t ∈ rem, fileExists st.files t.2.1.local_path = true ∧
    getsize st.files t.2.1.local_path = t.2.2) ∧
  (rem.map (fun t => t.1)).Nodup ∧
  (rem.map (fun t => t.2.1.local_path)).Nodup

/-- Model of ContentManager.sync_content.  screen_id is
config.get('screen_id'); fetch is the outcome of constructing the
APIClient and calling get_media_list (error = any exception reaching the
outer try, which the source catches and turns into the False return). -/
def sync_content (dl : String → Option Nat) (now : Nat) (maxB : Nat)
    (screen_id : Option String) (fetch : Except Unit (List MediaItem))
    (st : CMState) : Bool × CMState :=
  if !(pyTruthy screen_id) then (false, st)
  else
    match fetch with
    | Except.error _ => (false, st)
    | Except.ok media_list =>
      if media_list.isEmpty then (false, st)
      else
        let st1 := download_all dl now media_list st
        let pb := _build_playlist media_list st1
        let st2 := { pb.2 with current_playlist := pb.1 }
        let st3 := _cleanup_cache maxB st2
        (decide (0 < pb.1.length), st3)

/-- Model of ContentManager.get_current_content: reset the cursor to 0
when it has run past the end, return the item under it, and advance. -/
def get_current_content (st : CMState) : Option PlaylistItem × CMState :=
  if st.current_playlist.isEmpty then (none, st)
  else
    let idx := if st.current_playlist.length ≤ st.current_index then 0 else st.current_index
    (st.current_playlist[idx]?, { st with current_index := idx + 1 })

/-- The two persisted configuration fields read by
StateManager.get_current_state. -/
structure DeviceConfig where
  device_id : Option String
  screen_id : Option String
deriving DecidableEq

/-- The three lifecycle states named by the client. -/
inductive DeviceState where
  | NOT_PAIRED
  | WAITING_FOR_MEDIA
  | PLAYING_CONTENT
deriving DecidableEq

/-- Model of StateManager.get_current_state: the source returns
WAITING_FOR_MEDIA on both of its paired branches (its final line is
return self.WAITING_FOR_MEDIA with a comment deferring to the
ContentManager), so no branch produces PLAYING_CONTENT. -/
def get_current_state (config : DeviceConfig) : DeviceState :=
  if !(pyTruthy config.device_id) then DeviceState.NOT_PAIRED
  else if !(pyTruthy config.screen_id) then DeviceState.WAITING_FOR_MEDIA
  else DeviceState.WAITING_FOR_MEDIA

/-- The eleven command_type strings recognised by
CommandExecutor.execute_command. -/
def known_command_types : List String :=
  ["restart", "restart_content", "reboot", "shutdown", "sync_content",
   "clear_cache", "health_check", "update_config", "get_logs",
   "test_display", "emergency_message"]

/-- A polled remote command (command_data is absorbed into the handler
oracle; priority defaults to 5 at the call sites). -/
structure RemoteCommand where
  id : String
  command_type : String
  priority : Nat
deriving DecidableEq

/-- A status update sent to the gateway for one command. -/
structure StatusReport (α : Type) where
  command_id : String
  status : String
  result : Option α
  error_message : Option String
deriving DecidableEq

/-- Modelled from the spec: APIClient.update_command_status (and
APIClient.poll_commands) are called by the command pipeline but are not
defined anywhere under src/.  The spec describes status reporting as a
thin best-effort gateway call that never blocks or aborts execution, so
reporting is modelled as producing a record of the call. -/
def update_command_status (command_id status : String) {α : Type} (result : Option α)
    (error_message : Option String) : StatusReport α :=
  { command_id := command_id, status := status, result := result,
    error_message := error_message }

/-- Model of CommandExecutor.execute_command: run stands for the eleven
type handlers (returning a result payload or raising an error message);
an unrecognised type raises ValueError inside the same try, whose except
block reports failed with str(e) and returns False.  The reports issued
are returned in order alongside the boolean result. -/
def execute_command {α : Type} (run : RemoteCommand → Except String α)
    (cmd : RemoteCommand) : Bool × List (StatusReport α) :=
  let executing : StatusReport α := update_command_status cmd.id "executing" none none
  if cmd.command_type ∈ known_command_types then
    match run cmd with
    | Except.ok result =>
      (true, [executing, update_command_status cmd.id "completed" (some result) none])
    | Except.error msg =>
      (false, [executing, update_command_status cmd.id "failed" none (some msg)])
  else
    (false,
     [executing,
      update_command_status cmd.id "failed" none
        (some ("Unknown command type: " ++ cmd.command_type))])

/-- The batch order of MesophyPiClient._command_loop:
commands.sort(key priority) is a stable ascending sort. -/
def priority_le (a b : RemoteCommand) : Prop := a.priority ≤ b.priority

instance : DecidableRel priority_le := fun x y => Nat.decLe x.priority y.priority

instance : IsTotal RemoteCommand priority_le := ⟨fun x y => Nat.le_total x.priority y.priority⟩

instance : IsTrans RemoteCommand priority_le := ⟨fun _ _ _ => Nat.le_trans⟩

/-- The batch execution of MesophyPiClient._command_loop: sort the
polled commands by ascending priority and execute each one.
execute_command catches handler failures, so every command of the batch
is processed. -/
def execute_batch {α : Type} (run : RemoteCommand → Except String α)
    (commands : List RemoteCommand) : List (Bool × List (StatusReport α)) :=
  (List.insertionSort priority_le commands).map (execute_command run)

/-- The system metrics block gathered by _handle_health_check (psutil
percentages are floats used only in order comparisons, modelled as
rationals; temperature is None when the thermal sensor is unreadable). -/
structure SystemMetrics where
  cpu_percent : Rat
  memory_percent : Rat
  disk_usage : Rat
  temperature : Option Rat
deriving DecidableEq

/-- A gathered health snapshot: system is None when metric collection
raised (leaving the dict empty, so every numeric lookup defaults to 0);
the two network booleans are always set (the except block sets both to
False). -/
structure HealthSnapshot where
  system : Option SystemMetrics
  internet : Bool
  api_server : Bool
deriving DecidableEq

/-- The observable outcome of a successful health check. -/
structure HealthResult where
  overall_status : String
  issues : List String
deriving DecidableEq

/-- health_data['system'].get('cpu_percent', 0). -/
def snapshot_cpu (h : HealthSnapshot) : Rat :=
  match h.system with
  | none => 0
  | some s => s.cpu_percent

/-- health_data['system'].get('memory_percent', 0). -/
def snapshot_memory (h : HealthSnapshot) : Rat :=
  match h.system with
  | none => 0
  | some s => s.memory_percent

/-- health_data['system'].get('disk_usage', 0). -/
def snapshot_disk (h : HealthSnapshot) : Rat :=
  match h.system with
  | none => 0
  | some s => s.disk_usage

/-- health_data['system'].get('temperature', 0): the key is absent when
metric collection failed (default 0), but it holds None when
_get_cpu_temperature could not read the sensor, and the Python
comparison None > 80 then raises TypeError (modelled as error). -/
def snapshot_temperature (h : HealthSnapshot) : Except Unit Rat :=
  match h.system with
  | none => Except.ok 0
  | some s =>
    match s.temperature with
    | none => Except.error ()
    | some t => Except.ok t

/-- Model of the aggregation logic of CommandExecutor._handle_health_check:
the issue checks in source order, then overall_status healthy / warning
(at most 2 issues) / critical (more than 2).  An error is the handler
raising (caught by execute_command, which then reports failed). -/
def _handle_health_check (h : HealthSnapshot) : Except Unit HealthResult :=
  match snapshot_temperature h with
  | Except.error e => Except.error e
  | Except.ok temp =>
    let issues :=
      (if snapshot_cpu h > 90 then ["High CPU usage"] else []) ++
      (if snapshot_memory h > 90 then ["High memory usage"] else []) ++
      (if snapshot_disk h > 90 then ["Low disk space"] else []) ++
      (if temp > 80 then ["High temperature"] else []) ++
      (if !h.internet then ["No internet connectivity"] else []) ++
      (if !h.api_server then ["API server unreachable"] else [])
    let overall :=
      if issues.isEmpty then "healthy"
      else if issues.length ≤ 2 then "warning" else "critical"
    Except.ok { overall_status := overall, issues := issues }

/-- What the NOT_PAIRED handler drives onto the screen. -/
inductive DisplayAction where
  | show_pairing_code : String → DisplayAction
  | show_error : String → DisplayAction
deriving DecidableEq

/-- The display decision of MesophyPiClient.handle_not_paired: stored is
config.get('pairing_code'); gateway is the result of
APIClient.generate_pairing_code(), which returns the backend-issued code
on success and None on any request failure
(src/3rd-attempt-pi-client/lib/api_client.py contains no local fallback
generator). -/
def handle_not_paired_display (stored gateway : Option String) : DisplayAction :=
  let pairing_code := if pyTruthy stored then stored else gateway
  if pyTruthy pairing_code then
    DisplayAction.show_pairing_code (pairing_code.getD "")
  else DisplayAction.show_error "Failed to generate pairing code"

/-- The indexed entry for a media item, when present, records the same
declared type as the item (what _build_playlist establishes and what a
download writes). -/
def entry_type_matches (st : CMState) (m : MediaItem) : Bool :=
  match dictGet st.cache_info m.id with
  | none => true
  | some ce => ce.type == m.type

/-- An empty content-manager state (fresh install, empty cache). -/
def empty_cm : CMState :=
  { cache_info := [], files := [], current_playlist := [], current_index := 0,
    saves := 0, downloads := [] }

/-- Concrete eviction-scenario entry, size 40, downloaded at t = 1. -/
def entry_t1 : CacheEntry :=
  { local_path := path_join cache_dir "1_a", filename := "1_a", type := "image",
    size := 40, downloaded_at := 1, url_hash := md5_hexdigest "u1" }

/-- Concrete eviction-scenario entry, size 40, downloaded at t = 2. -/
def entry_t2 : CacheEntry :=
  { local_path := path_join cache_dir "2_b", filename := "2_b", type := "image",
    size := 40, downloaded_at := 2, url_hash := md5_hexdigest "u2" }

/-- Concrete eviction-scenario entry, size 40, downloaded at t = 3. -/
def entry_t3 : CacheEntry :=
  { local_path := path_join cache_dir "3_c", filename := "3_c", type := "image",
    size := 40, downloaded_at := 3, url_hash := md5_hexdigest "u3" }

/-- The spec's concrete eviction scenario: three 40-byte entries
downloaded at t = 1, 2, 3, all on disk (total 120). -/
def scenario_state : CMState :=
  { cache_info := [("1", entry_t1), ("2", entry_t2), ("3", entry_t3)],
    files := [(entry_t1.local_path, 40), (entry_t2.local_path, 40), (entry_t3.local_path, 40)],
    current_playlist := [], current_index := 0, saves := 0, downloads := [] }

/-- Tie-breaking counterexample entry: size 60, downloaded at t = 5. -/
def tie_entry_a : CacheEntry :=
  { local_path := path_join cache_dir "a_f", filename := "a_f", type := "image",
    size := 60, downloaded_at := 5, url_hash := md5_hexdigest "ua" }

/-- Tie-breaking counterexample entry: same timestamp as tie_entry_a. -/
def tie_entry_b : CacheEntry :=
  { local_path := path_join cache_dir "b_f", filename := "b_f", type := "image",
    size := 60, downloaded_at := 5, url_hash := md5_hexdigest "ub" }

/-- Two equal-timestamp 60-byte entries, both on disk (total 120). -/
def tie_state : CMState :=
  { cache_info := [("a", tie_entry_a), ("b", tie_entry_b)],
    files := [(tie_entry_a.local_path, 60), (tie_entry_b.local_path, 60)],
    current_playlist := [], current_index := 0, saves := 0, downloads := [] }

/-- Concrete playlist item A. -/
def itemA : PlaylistItem :=
  { id := "A", path := path_join cache_dir "A_a.png", type := "image",
    filename := "A_a.png", duration := 10 }

/-- Concrete playlist item B. -/
def itemB : PlaylistItem :=
  { id := "B", path := path_join cache_dir "B_b.png", type := "image",
    filename := "B_b.png", duration := 10 }

/-- Concrete playlist item C. -/
def itemC : PlaylistItem :=
  { id := "C", path := path_join cache_dir "C_c.png", type := "image",
    filename := "C_c.png", duration := 10 }

/-- A state holding the 3-item playlist [A, B, C] with the cursor at 0. -/
def abc_state : CMState :=
  { cache_info := [], files := [], current_playlist := [itemA, itemB, itemC],
    current_index := 0, saves := 0, downloads := [] }

/-- Concrete media item used by the idempotent-sync witness. -/
def m6 : MediaItem :=
  { id := "1", url := "http://cdn/a.png", type := "image", filename := "a.png",
    duration := 10 }

/-- Cache entry left by a completed sync of m6. -/
def e6 : CacheEntry :=
  { local_path := item_local_path m6, filename := item_local_filename m6,
    type := "image", size := 5, downloaded_at := 1,
    url_hash := md5_hexdigest m6.url }

/-- State after a completed sync of [m6]: entry recorded, file on disk. -/
def st6 : CMState :=
  { cache_info := [("1", e6)], files := [(item_local_path m6, 5)],
    current_playlist := [], current_index := 0, saves := 0, downloads := [] }


/-- The eviction loop touches only files and cache_info. -/
theorem evict_loop_playlist (maxB : Nat) :
    ∀ (rem : List EvictItem) (total : Nat) (st : CMState),
      (evict_loop maxB rem total st).current_playlist = st.current_playlist := by
  intro rem
  induction rem with
  | nil => intro total st; rfl
  | cons t rest ih =>
    intro total st
    unfold evict_loop
    split
    · rfl
    · exact ih _ _

/-- Cache cleanup does not touch the current playlist. -/
theorem cleanup_playlist (maxB : Nat) (st : CMState) :
    (_cleanup_cache maxB st).current_playlist = st.current_playlist := by
  simp only [_cleanup_cache]
  split
  · simp [evict_loop_playlist]
  · rfl

/-- The in-place-update pass of dictSet finds the assigned pair. -/
theorem find?_map_set {α : Type} (k : String) (v : α) :
    ∀ tl : Dict α, (tl.find? (fun e => e.1 == k)).isSome = true →
      List.find? (fun e => e.1 == k)
          (tl.map (fun e => if e.1 == k then (k, v) else e)) = some (k, v) := by
  intro tl
  induction tl with
  | nil => simp
  | cons e tl ih =>
    intro h
    by_cases he : e.1 = k
    · simp [List.find?_cons, he]
    · have hb : (e.1 == k) = false := beq_eq_false_iff_ne.mpr he
      simp only [List.find?_cons, hb] at h
      simp only [List.map_cons, List.find?_cons, hb, Bool.false_eq_true, if_false]
      exact ih h

/-- Looking up the key just assigned returns the assigned value. -/
theorem dictGet_set_self {α : Type} (d : Dict α) (k : String) (v : α) :
    dictGet (dictSet d k v) k = some v := by
  unfold dictGet dictSet
  split
  · rename_i h
    rw [find?_map_set k v d h]
    rfl
  · rw [List.find?_append]
    rename_i h
    have hnone : d.find? (fun e => e.1 == k) = none := by
      cases hf : d.find? (fun e => e.1 == k)
      · rfl
      · rw [hf] at h; simp at h
    rw [hnone]
    simp [List.find?_cons]

/-- Claim C1 (code_bug evidence): StateManager.get_current_state of
lib/state_manager.py can never yield PLAYING_CONTENT: for every device
configuration it returns NOT_PAIRED or WAITING_FOR_MEDIA, and on the
configuration the claim says is PLAYING_CONTENT (paired with a screen
assigned) it returns WAITING_FOR_MEDIA regardless of the playlist. -/
theorem C1_get_current_state_never_playing :
    (∀ config : DeviceConfig, get_current_state config ≠ DeviceState.PLAYING_CONTENT) ∧
    get_current_state { device_id := some "pi-123", screen_id := some "screen-1" } =
      DeviceState.WAITING_FOR_MEDIA := by
  constructor
  · intro config
    unfold get_current_state
    split
    · simp
    · split <;> simp
  · decide

/-- Claim C4: get_current_content returns None and leaves the state
unchanged on an empty playlist; on a non-empty playlist it returns the
item at the cursor (wrapped to 0 when past the end) and advances the
cursor by one; four successive calls over the 3-item playlist [A, B, C]
return A, B, C, A. -/
theorem C4_current_item_cycles :
    (∀ st : CMState, st.current_playlist = [] → get_current_content st = (none, st)) ∧
    (∀ st : CMState, st.current_playlist ≠ [] →
      (get_current_content st).1 =
        st.current_playlist[if st.current_playlist.length ≤ st.current_index then 0
                            else st.current_index]? ∧
      ((get_current_content st).1).isSome = true ∧
      (get_current_content st).2 =
        { st with current_index :=
            (if st.current_playlist.length ≤ st.current_index then 0
             else st.current_index) + 1 }) ∧
    ((get_current_content abc_state).1 = some itemA ∧
     (get_current_content (get_current_content abc_state).2).1 = some itemB ∧
     (get_current_content (get_current_content (get_current_content abc_state).2).2).1 =
       some itemC ∧
     (get_current_content (get_current_content (get_current_content
        (get_current_content abc_state).2).2).2).1 = some itemA) := by
  refine ⟨?_, ?_, by decide⟩
  · intro st h
    unfold get_current_content
    simp [h]
  · intro st h
    have hpos : 0 < st.current_playlist.length := List.length_pos.mpr h
    unfold get_current_content
    split
    · rename_i hemp
      rw [List.isEmpty_iff] at hemp
      exact absurd hemp h
    · refine ⟨rfl, ?_, rfl⟩
      have hlt : (if st.current_playlist.length ≤ st.current_index then 0
          else st.current_index) < st.current_playlist.length := by
        split <;> omega
      show (st.current_playlist[if st.current_playlist.length ≤ st.current_index then 0
        else st.current_index]?).isSome = true
      rw [List.getElem?_eq_getElem hlt]
      rfl

/-- Claim C8 (counterexample): with no stored pairing code and the
gateway request failed, handle_not_paired renders the on-screen error
message, not a pairing code: no locally generated fallback exists in
src/3rd-attempt-pi-client. -/
theorem C8_no_fallback_counterexample :
    handle_not_paired_display none none =
      DisplayAction.show_error "Failed to generate pairing code" := by decide

/-- Claim C8 (amended): when the stored pairing code is absent or empty
and the gateway request fails, the NOT_PAIRED handler shows the error
"Failed to generate pairing code" on screen; a pairing code is rendered
exactly when the stored config or the gateway supplies a non-empty one
(there is no locally generated fallback code). -/
theorem C8_pairing_failure_amended :
    (∀ stored gateway : Option String,
      pyTruthy stored = false → pyTruthy gateway = false →
      handle_not_paired_display stored gateway =
        DisplayAction.show_error "Failed to generate pairing code") ∧
    (∀ stored gateway : Option String,
      (∃ c, handle_not_paired_display stored gateway =
        DisplayAction.show_pairing_code c) ↔
          (pyTruthy stored = true ∨ pyTruthy gateway = true)) := by
  constructor
  · intro stored gateway hs hg
    unfold handle_not_paired_display
    simp [hs, hg]
  · intro stored gateway
    constructor
    · rintro ⟨c, hc⟩
      by_cases hs : pyTruthy stored = true
      · exact Or.inl hs
      · have hs2 : pyTruthy stored = false := by simpa using hs
        by_cases hg : pyTruthy gateway = true
        · exact Or.inr hg
        · have hg2 : pyTruthy gateway = false := by simpa using hg
          simp [handle_not_paired_display, hs2, hg2] at hc
    · intro h
      by_cases hs : pyTruthy stored = true
      · exact ⟨stored.getD "", by simp [handle_not_paired_display, hs]⟩
      · have hs2 : pyTruthy stored = false := by simpa using hs
        rcases h with h | h
        · exact absurd h hs
        · exact ⟨gateway.getD "", by simp [handle_not_paired_display, hs2, h]⟩

/-- Claim C9 (code_bug evidence): on a gathered snapshot whose
temperature reading is None (the thermal sensor is unreadable, a normal
outcome of _get_cpu_temperature), _handle_health_check raises (Python
evaluates None > 80, a TypeError), so the command reports failed instead
of the claimed healthy status; the same snapshot with a numeric
temperature yields overall_status healthy with no issues. -/
theorem C9_health_check_temp_none :
    _handle_health_check
      { system := some { cpu_percent := 10, memory_percent := 10, disk_usage := 10,
                         temperature := none },
        internet := true, api_server := true } = Except.error () ∧
    _handle_health_check
      { system := some { cpu_percent := 10, memory_percent := 10, disk_usage := 10,
                         temperature := some 50 },
        internet := true, api_server := true } =
      Except.ok { overall_status := "healthy", issues := [] } := by decide

/-- Claim C10: a command whose type string is none of the eleven
recognised ones makes execute_command report failed with the message
"Unknown command type: (type)" and return False without raising. -/
theorem C10_unknown_command_failed :
    ∀ (α : Type) (run : RemoteCommand → Except String α) (cmd : RemoteCommand),
      cmd.command_type ∉ known_command_types →
      execute_command run cmd =
        (false,
         [{ command_id := cmd.id, status := "executing", result := none,
            error_message := none },
          { command_id := cmd.id, status := "failed", result := none,
            error_message := some ("Unknown command type: " ++ cmd.command_type) }]) := by
  intro α run cmd h
  unfold execute_command update_command_status
  simp [h]

/-- Witness for C10 at the concrete unknown type "frobnicate". -/
theorem C10_unknown_command_failed_witness :
    execute_command (fun _ => (Except.ok () : Except String Unit))
        { id := "c9", command_type := "frobnicate", priority := 5 } =
      (false,
       [{ command_id := "c9", status := "executing", result := none, error_message := none },
        { command_id := "c9", status := "failed", result := none,
          error_message := some "Unknown command type: frobnicate" }]) :=
  C10_unknown_command_failed Unit (fun _ => Except.ok ())
    { id := "c9", command_type := "frobnicate", priority := 5 } (by decide)

/-- Claim C5: every command of a polled batch is processed (the batch is
the priority-sorted list, one execution per command); a handler that
returns yields a completed report with its payload; a handler that
raises yields a failed report carrying the message string and the
dispatcher returns False instead of re-raising; in the concrete
3-command batch whose 2nd handler raises, the 1st and 3rd still report
completed. -/
theorem C5_command_batch_isolation :
    (∀ (α : Type) (run : RemoteCommand → Except String α) (cmds : List RemoteCommand),
      (execute_batch run cmds).length = cmds.length) ∧
    (∀ (α : Type) (run : RemoteCommand → Except String α) (cmd : RemoteCommand) (a : α),
      cmd.command_type ∈ known_command_types → run cmd = Except.ok a →
      execute_command run cmd =
        (true,
         [{ command_id := cmd.id, status := "executing", result := none,
            error_message := none },
          { command_id := cmd.id, status := "completed", result := some a,
            error_message := none }])) ∧
    (∀ (α : Type) (run : RemoteCommand → Except String α) (cmd : RemoteCommand)
       (msg : String),
      cmd.command_type ∈ known_command_types → run cmd = Except.error msg →
      execute_command run cmd =
        (false,
         [{ command_id := cmd.id, status := "executing", result := none,
            error_message := none },
          { command_id := cmd.id, status := "failed", result := none,
            error_message := some msg }])) ∧
    (execute_batch
        (fun c => if c.id = "1" then Except.ok "r1"
                  else if c.id = "2" then Except.error "boom" else Except.ok "r3")
        [{ id := "1", command_type := "sync_content", priority := 1 },
         { id := "2", command_type := "reboot", priority := 2 },
         { id := "3", command_type := "health_check", priority := 3 }] =
      [(true, [{ command_id := "1", status := "executing", result := none,
                 error_message := none },
               { command_id := "1", status := "completed", result := some "r1",
                 error_message := none }]),
       (false, [{ command_id := "2", status := "executing", result := none,
                  error_message := none },
                { command_id := "2", status := "failed", result := none,
                  error_message := some "boom" }]),
       (true, [{ command_id := "3", status := "executing", result := none,
                 error_message := none },
               { command_id := "3", status := "completed", result := some "r3",
                 error_message := none }])]) := by
  refine ⟨?_, ?_, ?_, by decide⟩
  · intro α run cmds
    unfold execute_batch
    rw [List.length_map]
    exact (List.perm_insertionSort priority_le cmds).length_eq
  · intro α run cmd a hmem hrun
    unfold execute_command update_command_status
    simp [hmem, hrun]
  · intro α run cmd msg hmem hrun
    unfold execute_command update_command_status
    simp [hmem, hrun]

/-- Witness for C5 applying the completed and failed cases at concrete
commands. -/
theorem C5_command_batch_isolation_witness :
    execute_command (fun _ => (Except.ok 42 : Except String Nat))
        { id := "w1", command_type := "reboot", priority := 5 } =
      (true, [{ command_id := "w1", status := "executing", result := none,
                error_message := none },
              { command_id := "w1", status := "completed", result := some 42,
                error_message := none }]) ∧
    execute_command (fun _ => (Except.error "boom" : Except String Nat))
        { id := "w2", command_type := "reboot", priority := 5 } =
      (false, [{ command_id := "w2", status := "executing", result := none,
                 error_message := none },
               { command_id := "w2", status := "failed", result := none,
                 error_message := some "boom" }]) :=
  ⟨C5_command_batch_isolation.2.1 Nat (fun _ => Except.ok 42)
      { id := "w1", command_type := "reboot", priority := 5 } 42 (by decide) rfl,
   C5_command_batch_isolation.2.2.1 Nat (fun _ => Except.error "boom")
      { id := "w2", command_type := "reboot", priority := 5 } "boom" (by decide) rfl⟩

/-- Claim C7: if an entry for the asset exists but its stored
fingerprint does not match the (new) backend URL, the item is
re-downloaded and the stored fingerprint becomes the hash of the new
URL; if the fingerprint matches and the files exist, it is a cache hit
and nothing is downloaded or changed. -/
theorem C7_fingerprint_invalidation :
    (∀ (dl : String → Option Nat) (now : Nat) (st : CMState) (m : MediaItem)
       (ce : CacheEntry) (sz : Nat),
      dictGet st.cache_info m.id = some ce →
      ce.url_hash ≠ md5_hexdigest m.url →
      dl m.url = some sz →
      (_download_media_item dl now st m).1 = true ∧
      ∃ e2, dictGet (_download_media_item dl now st m).2.cache_info m.id = some e2 ∧
            e2.url_hash = md5_hexdigest m.url) ∧
    (∀ (dl : String → Option Nat) (now : Nat) (st : CMState) (m : MediaItem)
       (ce : CacheEntry),
      fileExists st.files (item_local_path m) = true →
      dictGet st.cache_info m.id = some ce →
      ce.url_hash = md5_hexdigest m.url →
      fileExists st.files ce.local_path = true →
      _download_media_item dl now st m = (false, st)) := by
  constructor
  · intro dl now st m ce sz hce hne hdl
    have hb : (ce.url_hash == md5_hexdigest m.url) = false := beq_eq_false_iff_ne.mpr hne
    have hmiss : _is_cached_and_current st m
        (path_join cache_dir (item_local_filename m)) = false := by
      simp only [_is_cached_and_current, hce]
      split
      · rfl
      · simp [hb]
    simp only [_download_media_item, hmiss, Bool.false_eq_true, if_false, hdl]
    refine ⟨by simp, _, dictGet_set_self _ _ _, rfl⟩
  · intro dl now st m ce hf hce hhash hcf
    have hf2 : fileExists st.files (path_join cache_dir (item_local_filename m)) = true := hf
    have hhit : _is_cached_and_current st m
        (path_join cache_dir (item_local_filename m)) = true := by
      simp only [_is_cached_and_current, hce, hf2, hhash, hcf]
      simp
    simp only [_download_media_item, hhit, if_true]

/-- Witness for C7: a changed URL for the cached asset of st6 is
re-downloaded with the new fingerprint. -/
theorem C7_fingerprint_invalidation_witness :
    (_download_media_item (fun _ => some 9) 2 st6 { m6 with url := "http://cdn/b.png" }).1 =
      true ∧
    ∃ e2,
      dictGet (_download_media_item (fun _ => some 9) 2 st6
          { m6 with url := "http://cdn/b.png" }).2.cache_info "1" = some e2 ∧
      e2.url_hash = md5_hexdigest "http://cdn/b.png" :=
  C7_fingerprint_invalidation.1 (fun _ => some 9) 2 st6 { m6 with url := "http://cdn/b.png" }
    e6 9 (by decide) (by decide) rfl

/-- Claim C3: on a successful fetch of a non-empty media list, sync
returns True exactly when the playlist it rebuilds is non-empty; a
failing download leaves the state untouched, so the remaining items are
processed exactly as if the failing item were absent; an error raised
during the sync is caught and produces the False return with the state
unchanged. -/
theorem C3_sync_error_handling :
    (∀ (dl : String → Option Nat) (now maxB : Nat) (sid : Option String)
       (L : List MediaItem) (st : CMState),
      pyTruthy sid = true → L ≠ [] →
      ((sync_content dl now maxB sid (Except.ok L) st).1 = true ↔
        (sync_content dl now maxB sid (Except.ok L) st).2.current_playlist ≠ [])) ∧
    (∀ (dl : String → Option Nat) (now : Nat) (st : CMState)
       (L1 L2 : List MediaItem) (bad : MediaItem),
      dl bad.url = none →
      download_all dl now (L1 ++ bad :: L2) st = download_all dl now (L1 ++ L2) st) ∧
    (∀ (dl : String → Option Nat) (now maxB : Nat) (sid : Option String)
       (st : CMState) (e : Unit),
      sync_content dl now maxB sid (Except.error e) st = (false, st)) := by
  refine ⟨?_, ?_, ?_⟩
  · intro dl now maxB sid L st hsid hL
    have hne : L.isEmpty = false := by
      cases hcp : L
      · exact absurd hcp hL
      · rfl
    unfold sync_content
    rw [hsid]
    simp only [Bool.not_true, Bool.false_eq_true, if_false, hne]
    rw [cleanup_playlist]
    simp [List.length_pos]
  · intro dl now st L1 L2 bad hbad
    have hstep : ∀ s : CMState, (_download_media_item dl now s bad).2 = s := by
      intro s
      simp only [_download_media_item]
      split
      · rfl
      · rw [hbad]
    unfold download_all
    rw [List.foldl_append, List.foldl_append, List.foldl_cons, hstep]
  · intro dl now maxB sid st e
    unfold sync_content
    split <;> rfl

/-- Witness for C3 at a concrete one-item list whose download fails and
a concrete raised fetch error. -/
theorem C3_sync_error_handling_witness :
    ((sync_content (fun _ => none) 0 100 (some "s") (Except.ok [m6]) empty_cm).1 = true ↔
      (sync_content (fun _ => none) 0 100 (some "s")
        (Except.ok [m6]) empty_cm).2.current_playlist ≠ []) ∧
    download_all (fun _ => none) 0 ([] ++ m6 :: []) empty_cm =
      download_all (fun _ => none) 0 ([] ++ []) empty_cm ∧
    sync_content (fun _ => none) 0 100 (some "s") (Except.error ()) empty_cm =
      (false, empty_cm) :=
  ⟨C3_sync_error_handling.1 (fun _ => none) 0 100 (some "s") [m6] empty_cm (by decide)
      (by decide),
   C3_sync_error_handling.2.1 (fun _ => none) 0 empty_cm [] [] m6 rfl,
   C3_sync_error_handling.2.2 (fun _ => none) 0 100 (some "s") empty_cm ()⟩


/-- Unfolding a cache hit: the computed path exists, an entry is
recorded, its fingerprint matches and its file exists. -/
theorem hit_elim (st : CMState) (m : MediaItem) (p : String)
    (h : _is_cached_and_current st m p = true) :
    fileExists st.files p = true ∧
    ∃ ce, dictGet st.cache_info m.id = some ce ∧ ce.url_hash = md5_hexdigest m.url ∧
      fileExists st.files ce.local_path = true := by
  unfold _is_cached_and_current at h
  cases hfp : fileExists st.files p with
  | false =>
    rw [hfp] at h
    simp at h
  | true =>
    rw [hfp] at h
    simp only [Bool.not_true, Bool.false_eq_true, if_false] at h
    cases hce : dictGet st.cache_info m.id with
    | none => rw [hce] at h; simp at h
    | some ce =>
      rw [hce] at h
      have h2 : (if (!ce.url_hash == md5_hexdigest m.url) = true then false
          else fileExists st.files ce.local_path) = true := h
      cases hq : (ce.url_hash == md5_hexdigest m.url) with
      | false => rw [hq] at h2; simp at h2
      | true =>
        rw [hq] at h2
        simp only [Bool.not_true, Bool.false_eq_true, if_false] at h2
        refine ⟨by simp [hfp], ce, by simp [hce], beq_iff_eq.mp hq, h2⟩

/-- A cache hit makes _download_media_item a no-op returning False. -/
theorem download_item_of_hit (dl : String → Option Nat) (now : Nat) (st : CMState)
    (m : MediaItem)
    (h : _is_cached_and_current st m (path_join cache_dir (item_local_filename m)) = true) :
    _download_media_item dl now st m = (false, st) := by
  simp only [_download_media_item, h, if_true]

/-- The download pass leaves the state untouched when every item is a
cache hit. -/
theorem download_all_of_hits (dl : String → Option Nat) (now : Nat) :
    ∀ (L : List MediaItem) (st : CMState),
      (∀ m ∈ L, _is_cached_and_current st m (item_local_path m) = true) →
      download_all dl now L st = st := by
  intro L
  induction L with
  | nil => intro st _; rfl
  | cons m tl ih =>
    intro st h
    have hm : _is_cached_and_current st m
        (path_join cache_dir (item_local_filename m)) = true :=
      h m (List.mem_cons_self m tl)
    simp only [download_all, List.foldl_cons]
    rw [download_item_of_hit dl now st m hm]
    exact ih st (fun x hx => h x (List.mem_cons_of_mem m hx))

/-- The playlist rebuild leaves the state untouched when every item is a
cache hit whose recorded type already matches. -/
theorem build_playlist_of_hits :
    ∀ (L : List MediaItem) (st : CMState) (pl0 : List PlaylistItem),
      (∀ m ∈ L, _is_cached_and_current st m (item_local_path m) = true) →
      (∀ m ∈ L, entry_type_matches st m = true) →
      (L.foldl _build_step (pl0, st)).2 = st := by
  intro L
  induction L with
  | nil => intro st pl0 _ _; rfl
  | cons m tl ih =>
    intro st pl0 h1 h2
    have hm := h1 m (List.mem_cons_self m tl)
    obtain ⟨-, ce, hce, -, hcf⟩ := hit_elim st m (item_local_path m) hm
    have htype : ce.type = m.type := by
      have h2m := h2 m (List.mem_cons_self m tl)
      simp only [entry_type_matches, hce] at h2m
      exact beq_iff_eq.mp h2m
    have hstep : _build_step (pl0, st) m =
        (pl0 ++ [{ id := m.id, path := ce.local_path, type := m.type,
                   filename := ce.filename, duration := m.duration }], st) := by
      simp only [_build_step, hce, hcf, if_true, htype]
      simp [htype]
    rw [List.foldl_cons, hstep]
    exact ih st _ (fun x hx => h1 x (List.mem_cons_of_mem m hx))
      (fun x hx => h2 x (List.mem_cons_of_mem m hx))

/-- A cache already at or under budget is not touched by cleanup. -/
theorem cleanup_of_under_budget (maxB : Nat) (st : CMState)
    (h : existing_total st ≤ maxB) : _cleanup_cache maxB st = st := by
  simp only [_cleanup_cache]
  split
  · rename_i hgt
    exact absurd hgt (not_lt.mpr h)
  · rfl

/-- Claim C6: a second sync over an unchanged media list, with every
item still cached and current (entry recorded with the same type, files
on disk) and the cache within budget (what the first sync's eviction
guarantees), performs no downloads, does not rewrite the cache index
and leaves the index, the files and the recorded downloads unchanged. -/
theorem C6_sync_idempotent :
    ∀ (dl : String → Option Nat) (now maxB : Nat) (sid : Option String)
      (L : List MediaItem) (st : CMState),
      (∀ m ∈ L, _is_cached_and_current st m (item_local_path m) = true) →
      (∀ m ∈ L, entry_type_matches st m = true) →
      existing_total st ≤ maxB →
      (sync_content dl now maxB sid (Except.ok L) st).2.downloads = st.downloads ∧
      (sync_content dl now maxB sid (Except.ok L) st).2.saves = st.saves ∧
      (sync_content dl now maxB sid (Except.ok L) st).2.cache_info = st.cache_info ∧
      (sync_content dl now maxB sid (Except.ok L) st).2.files = st.files := by
  intro dl now maxB sid L st h1 h2 hb
  simp only [sync_content]
  split
  · exact ⟨rfl, rfl, rfl, rfl⟩
  · split
    · exact ⟨rfl, rfl, rfl, rfl⟩
    · rw [download_all_of_hits dl now L st h1]
      have hbuild : (_build_playlist L st).2 = st :=
        build_playlist_of_hits L st [] h1 h2
      rw [show _build_playlist L st = ((_build_playlist L st).1, st) from
        Prod.ext rfl hbuild]
      have hclean : _cleanup_cache maxB
          { st with current_playlist := ((_build_playlist L st).1, st).1 } =
          { st with current_playlist := ((_build_playlist L st).1, st).1 } :=
        cleanup_of_under_budget maxB _ hb
      rw [hclean]
      exact ⟨rfl, rfl, rfl, rfl⟩

/-- Witness for C6: re-syncing the one-item list already cached in st6
changes nothing and downloads nothing. -/
theorem C6_sync_idempotent_witness :
    (sync_content (fun _ => none) 7 100 (some "s") (Except.ok [m6]) st6).2.downloads =
      st6.downloads ∧
    (sync_content (fun _ => none) 7 100 (some "s") (Except.ok [m6]) st6).2.saves =
      st6.saves ∧
    (sync_content (fun _ => none) 7 100 (some "s") (Except.ok [m6]) st6).2.cache_info =
      st6.cache_info ∧
    (sync_content (fun _ => none) 7 100 (some "s") (Except.ok [m6]) st6).2.files =
      st6.files :=
  C6_sync_idempotent (fun _ => none) 7 100 (some "s") [m6] st6 (by decide) (by decide)
    (by decide)


/-- Witness for C4: on the empty playlist the call returns None and the
state is unchanged. -/
theorem C4_current_item_cycles_witness :
    get_current_content empty_cm = (none, empty_cm) :=
  C4_current_item_cycles.1 empty_cm rfl

/-- Witness for C8 at a stored None code and an empty gateway code. -/
theorem C8_pairing_failure_amended_witness :
    handle_not_paired_display none (some "") =
      DisplayAction.show_error "Failed to generate pairing code" :=
  C8_pairing_failure_amended.1 none (some "") (by decide) (by decide)


/-- Removing one file leaves the existence of any other path unchanged. -/
theorem fileExists_fileRemove (fs : FileSystem) (p q : String) (h : q ≠ p) :
    fileExists (fileRemove fs p) q = fileExists fs q := by
  induction fs with
  | nil => rfl
  | cons e tl ih =>
    by_cases heq : e.1 = q
    · have h1 : (e.1 != p) = true := by simp [heq, h]
      have h2 : (e.1 == q) = true := by simp [heq]
      simp only [fileRemove, fileExists, List.filter_cons, h1, if_true, List.any_cons, h2,
        Bool.true_or]
    · have h2 : (e.1 == q) = false := by simp [heq]
      by_cases hep : e.1 = p
      · have h1 : (e.1 != p) = false := by simp [hep]
        simp only [fileRemove, fileExists, List.filter_cons, h1, Bool.false_eq_true, if_false,
          List.any_cons, h2, Bool.false_or] at ih ⊢
        exact ih
      · have h1 : (e.1 != p) = true := by simp [hep]
        simp only [fileRemove, fileExists, List.filter_cons, h1, if_true, List.any_cons, h2,
          Bool.false_or] at ih ⊢
        exact ih

/-- Removing one file leaves the size of any other path unchanged. -/
theorem getsize_fileRemove (fs : FileSystem) (p q : String) (h : q ≠ p) :
    getsize (fileRemove fs p) q = getsize fs q := by
  induction fs with
  | nil => rfl
  | cons e tl ih =>
    by_cases heq : e.1 = q
    · have h1 : (e.1 != p) = true := by simp [heq, h]
      have h2 : (e.1 == q) = true := by simp [heq]
      simp only [fileRemove, getsize, List.filter_cons, h1, if_true, List.find?_cons, h2]
    · have h2 : (e.1 == q) = false := by simp [heq]
      by_cases hep : e.1 = p
      · have h1 : (e.1 != p) = false := by simp [hep]
        simp only [fileRemove, getsize, List.filter_cons, h1, Bool.false_eq_true, if_false,
          List.find?_cons, h2] at ih ⊢
        exact ih
      · have h1 : (e.1 != p) = true := by simp [hep]
        simp only [fileRemove, getsize, List.filter_cons, h1, if_true, List.find?_cons,
          h2] at ih ⊢
        exact ih

/-- A pair present in the dict makes its key found. -/
theorem dictGet_isSome_of_mem {α : Type} {d : Dict α} {p : String × α} (hp : p ∈ d) :
    (dictGet d p.1).isSome = true := by
  unfold dictGet
  rw [Option.isSome_map']
  rw [List.find?_isSome]
  exact ⟨p, hp, by simp⟩

/-- A filterMap that is pointwise some is the corresponding map. -/
theorem filterMap_congr_some {α β : Type} (f : α → Option β) (g : α → β) :
    ∀ l : List α, (∀ x ∈ l, f x = some (g x)) → l.filterMap f = l.map g := by
  intro l
  induction l with
  | nil => intro _; rfl
  | cons x tl ih =>
    intro h
    rw [List.filterMap_cons, h x (List.mem_cons_self x tl), List.map_cons,
      ih (fun y hy => h y (List.mem_cons_of_mem x hy))]


/-- Removing the head of the working list preserves the eviction
invariant for the tail. -/
theorem goodRem_step (t : EvictItem) (rest : List EvictItem) (st : CMState)
    (hg : GoodRem (t :: rest) st) :
    GoodRem rest
      { st with
        files := fileRemove st.files t.2.1.local_path,
        cache_info := dictDel st.cache_info t.1 } := by
  obtain ⟨hperm, hfiles, hkeys, hpaths⟩ := hg
  have hkeys2 : t.1 ∉ rest.map (fun u => u.1) ∧ (rest.map (fun u => u.1)).Nodup := by
    simpa using hkeys
  have hpaths2 : t.2.1.local_path ∉ rest.map (fun u => u.2.1.local_path) ∧
      (rest.map (fun u => u.2.1.local_path)).Nodup := by
    simpa using hpaths
  refine ⟨?_, ?_, hkeys2.2, hpaths2.2⟩
  · have h2 : (st.cache_info.filter (fun e => e.1 != t.1)).Perm
        (((t :: rest).map evict_kep).filter (fun e => e.1 != t.1)) :=
      hperm.filter _
    have h3 : ((t :: rest).map evict_kep).filter (fun e => e.1 != t.1) =
        rest.map evict_kep := by
      simp only [List.map_cons, List.filter_cons]
      have ht : ((evict_kep t).1 != t.1) = false := by simp [evict_kep]
      rw [ht]
      simp only [Bool.false_eq_true, if_false]
      apply List.filter_eq_self.mpr
      intro x hx
      obtain ⟨u, hu, hxu⟩ := List.mem_map.mp hx
      have hne : u.1 ≠ t.1 := by
        intro hEq
        exact hkeys2.1 (hEq ▸ List.mem_map.mpr ⟨u, hu, rfl⟩)
      rw [← hxu]
      simpa [evict_kep] using hne
    exact h3 ▸ h2
  · intro u hu
    have hne : u.2.1.local_path ≠ t.2.1.local_path := by
      intro hEq
      exact hpaths2.1 (hEq ▸ List.mem_map.mpr ⟨u, hu, rfl⟩)
    have hf := hfiles u (List.mem_cons_of_mem t hu)
    constructor
    · show fileExists (fileRemove st.files t.2.1.local_path) u.2.1.local_path = true
      rw [fileExists_fileRemove st.files t.2.1.local_path u.2.1.local_path hne]
      exact hf.1
    · show getsize (fileRemove st.files t.2.1.local_path) u.2.1.local_path = u.2.2
      rw [getsize_fileRemove st.files t.2.1.local_path u.2.1.local_path hne]
      exact hf.2

/-- The eviction loop stops at some suffix of the working list: the
suffix still satisfies the invariant and its aggregate size is at or
under the budget. -/
theorem evict_loop_spec (maxB : Nat) :
    ∀ (rem : List EvictItem) (st : CMState), GoodRem rem st →
      ∃ n : Nat,
        GoodRem (rem.drop n) (evict_loop maxB rem ((rem.map evict_size).sum) st) ∧
        ((rem.drop n).map evict_size).sum ≤ maxB := by
  intro rem
  induction rem with
  | nil =>
    intro st hg
    exact ⟨0, hg, by simp⟩
  | cons t rest ih =>
    intro st hg
    by_cases hle : (((t :: rest).map evict_size).sum) ≤ maxB
    · have hstop : evict_loop maxB (t :: rest) (((t :: rest).map evict_size).sum) st = st := by
        unfold evict_loop
        rw [if_pos hle]
      exact ⟨0, by rw [List.drop_zero, hstop]; exact hg, by rw [List.drop_zero]; exact hle⟩
    · have hloop : evict_loop maxB (t :: rest) (((t :: rest).map evict_size).sum) st =
          evict_loop maxB rest ((rest.map evict_size).sum)
            { st with
              files := fileRemove st.files t.2.1.local_path,
              cache_info := dictDel st.cache_info t.1 } := by
        have htot : ((t :: rest).map evict_size).sum - t.2.2 = (rest.map evict_size).sum := by
          simp [evict_size]
        simp only [evict_loop]
        rw [if_neg hle, htot]
      obtain ⟨n, hgood, hsum⟩ := ih _ (goodRem_step t rest st hg)
      refine ⟨n + 1, ?_, ?_⟩
      · rw [List.drop_succ_cons, hloop]
        exact hgood
      · rw [List.drop_succ_cons]
        exact hsum


/-- Under the invariant, the aggregate on-disk size of the index equals
the working list's recorded total. -/
theorem existing_total_of_good (rem : List EvictItem) (st : CMState)
    (hg : GoodRem rem st) : existing_total st = (rem.map evict_size).sum := by
  obtain ⟨hperm, hfiles, -, -⟩ := hg
  have h1 : (existing_items st).Perm
      ((rem.map evict_kep).filterMap (fun e =>
        if fileExists st.files e.2.local_path then
          some (e.1, e.2, getsize st.files e.2.local_path)
        else none)) := hperm.filterMap _
  have h2 : (rem.map evict_kep).filterMap (fun e =>
        if fileExists st.files e.2.local_path then
          some (e.1, e.2, getsize st.files e.2.local_path)
        else none) =
      rem.map (fun t => (t.1, t.2.1, getsize st.files t.2.1.local_path)) := by
    rw [List.filterMap_map]
    apply filterMap_congr_some
    intro t ht
    simp [evict_kep, Function.comp, (hfiles t ht).1]
  rw [h2] at h1
  have h4 : ((existing_items st).map (fun t => t.2.2)).sum =
      ((rem.map (fun t => (t.1, t.2.1, getsize st.files t.2.1.local_path))).map
        (fun t : EvictItem => t.2.2)).sum := (h1.map _).sum_eq
  unfold existing_total
  rw [h4, List.map_map]
  congr 1
  apply List.map_congr_left
  intro t ht
  exact (hfiles t ht).2

/-- Bumping the save counter does not change the on-disk aggregate. -/
theorem existing_total_set_saves (X : CMState) (k : Nat) :
    existing_total { X with saves := k } = existing_total X := rfl

/-- Bumping the save counter does not change the index. -/
theorem cache_info_set_saves (X : CMState) (k : Nat) :
    ({ X with saves := k } : CMState).cache_info = X.cache_info := rfl

/-- Claim C2 (amended): for a well-formed index (distinct ids, distinct
local paths) with every indexed file on disk, an eviction pass leaves
the aggregate on-disk size of the indexed entries at or under the
budget, and every entry removed by the pass is no newer - by
downloaded_at - than every entry retained (equal timestamps can be split
by the pass, which is why the strict form of the claim fails); the
spec's concrete scenario (budget 100 bytes, three 40-byte entries at
t = 1, 2, 3, total 120) evicts exactly the t = 1 entry leaving 80. -/
theorem C2_evict_budget_amended :
    (∀ (maxB : Nat) (st : CMState),
      (st.cache_info.map (fun e => e.1)).Nodup →
      (st.cache_info.map (fun e => e.2.local_path)).Nodup →
      (∀ e ∈ st.cache_info, fileExists st.files e.2.local_path = true) →
      existing_total (_cleanup_cache maxB st) ≤ maxB ∧
      (∀ p ∈ st.cache_info, dictGet (_cleanup_cache maxB st).cache_info p.1 = none →
        ∀ q ∈ (_cleanup_cache maxB st).cache_info,
          p.2.downloaded_at ≤ q.2.downloaded_at)) ∧
    (dictGet (_cleanup_cache 100 scenario_state).cache_info "1" = none ∧
     dictGet (_cleanup_cache 100 scenario_state).cache_info "2" = some entry_t2 ∧
     dictGet (_cleanup_cache 100 scenario_state).cache_info "3" = some entry_t3 ∧
     existing_total (_cleanup_cache 100 scenario_state) = 80) := by
  refine ⟨?_, by decide⟩
  intro maxB st hkeys hpaths hexist
  by_cases hover : ((existing_items st).map (fun t => t.2.2)).sum > maxB
  case neg =>
    have hcl : _cleanup_cache maxB st = st := by
      simp only [_cleanup_cache]
      rw [if_neg hover]
    rw [hcl]
    refine ⟨Nat.le_of_not_lt hover, ?_⟩
    intro p hp hnone q hq
    have hs := dictGet_isSome_of_mem hp
    rw [hnone] at hs
    simp at hs
  case pos =>
    have hitems : existing_items st =
        st.cache_info.map (fun e => (e.1, e.2, getsize st.files e.2.local_path)) := by
      unfold existing_items
      apply filterMap_congr_some
      intro e he
      simp [hexist e he]
    have hperm_sort : (List.insertionSort evict_le (existing_items st)).Perm
        (existing_items st) := List.perm_insertionSort evict_le _
    have hsorted : List.Sorted evict_le
        (List.insertionSort evict_le (existing_items st)) :=
      List.sorted_insertionSort evict_le _
    have hmapkep : (existing_items st).map evict_kep = st.cache_info := by
      rw [hitems, List.map_map]
      have hcomp : (evict_kep ∘ fun e : String × CacheEntry =>
          (e.1, e.2, getsize st.files e.2.local_path)) =
          fun e : String × CacheEntry => (e.1, e.2) := rfl
      rw [hcomp]
      simp
    have hgood : GoodRem (List.insertionSort evict_le (existing_items st)) st := by
      refine ⟨?_, ?_, ?_, ?_⟩
      · have h5 := hperm_sort.map evict_kep
        rw [hmapkep] at h5
        exact h5.symm
      · intro t ht
        have ht2 : t ∈ existing_items st := hperm_sort.mem_iff.mp ht
        rw [hitems] at ht2
        obtain ⟨e, he, rfl⟩ := List.mem_map.mp ht2
        exact ⟨hexist e he, rfl⟩
      · have hki : ((existing_items st).map (fun t : EvictItem => t.1)).Nodup := by
          have hcomp : ((fun t : EvictItem => t.1) ∘ fun e : String × CacheEntry =>
              (e.1, e.2, getsize st.files e.2.local_path)) =
              fun e : String × CacheEntry => e.1 := rfl
          rw [hitems, List.map_map, hcomp]
          exact hkeys
        exact ((hperm_sort.map (fun t : EvictItem => t.1)).symm).nodup hki
      · have hpi : ((existing_items st).map
            (fun t : EvictItem => t.2.1.local_path)).Nodup := by
          have hcomp : ((fun t : EvictItem => t.2.1.local_path) ∘
              fun e : String × CacheEntry =>
              (e.1, e.2, getsize st.files e.2.local_path)) =
              fun e : String × CacheEntry => e.2.local_path := rfl
          rw [hitems, List.map_map, hcomp]
          exact hpaths
        exact ((hperm_sort.map (fun t : EvictItem => t.2.1.local_path)).symm).nodup hpi
    have htot : ((existing_items st).map (fun t => t.2.2)).sum =
        ((List.insertionSort evict_le (existing_items st)).map evict_size).sum :=
      ((hperm_sort.map evict_size).sum_eq).symm
    have hfin : _cleanup_cache maxB st =
        { evict_loop maxB (List.insertionSort evict_le (existing_items st))
            (((List.insertionSort evict_le (existing_items st)).map evict_size).sum) st with
          saves := (evict_loop maxB (List.insertionSort evict_le (existing_items st))
            (((List.insertionSort evict_le (existing_items st)).map evict_size).sum)
            st).saves + 1 } := by
      simp only [_cleanup_cache]
      rw [if_pos hover, htot]
    rw [hfin]
    obtain ⟨n, hgood2, hsum⟩ :=
      evict_loop_spec maxB (List.insertionSort evict_le (existing_items st)) st hgood
    constructor
    · rw [existing_total_set_saves, existing_total_of_good _ _ hgood2]
      exact hsum
    · intro p hp hnone q hq
      rw [cache_info_set_saves] at hnone hq
      obtain ⟨hperm2, -, -, -⟩ := hgood2
      have hq2 : q ∈ (List.drop n
          (List.insertionSort evict_le (existing_items st))).map evict_kep :=
        hperm2.mem_iff.mp hq
      obtain ⟨tq, htq, hq3⟩ := List.mem_map.mp hq2
      have hp2 : p ∈ (List.insertionSort evict_le (existing_items st)).map evict_kep :=
        hgood.1.mem_iff.mp hp
      obtain ⟨tp, htp, hp3⟩ := List.mem_map.mp hp2
      have htp2 : tp ∈ List.take n (List.insertionSort evict_le (existing_items st)) ++
          List.drop n (List.insertionSort evict_le (existing_items st)) := by
        rw [List.take_append_drop]
        exact htp
      rcases List.mem_append.mp htp2 with htake | hdrop
      · have hpw : List.Pairwise evict_le
            (List.take n (List.insertionSort evict_le (existing_items st)) ++
             List.drop n (List.insertionSort evict_le (existing_items st))) := by
          rw [List.take_append_drop]
          exact hsorted
        have hord := (List.pairwise_append.mp hpw).2.2 tp htake tq htq
        rw [← hp3, ← hq3]
        exact hord
      · exfalso
        have hmem : evict_kep tp ∈ (List.drop n
            (List.insertionSort evict_le (existing_items st))).map evict_kep :=
          List.mem_map.mpr ⟨tp, hdrop, rfl⟩
        have hmem2 := hperm2.mem_iff.mpr hmem
        have hsome := dictGet_isSome_of_mem hmem2
        rw [hp3] at hsome
        rw [hnone] at hsome
        simp at hsome

/-- Claim C2 (counterexample to the strict form): two entries of size 60
with the same timestamp t = 5 under budget 100: the pass removes the
first-listed entry and retains the second, and the removed entry is not
older than the retained one (their timestamps are equal). -/
theorem C2_evict_tie_counterexample :
    dictGet (_cleanup_cache 100 tie_state).cache_info "a" = none ∧
    dictGet (_cleanup_cache 100 tie_state).cache_info "b" = some tie_entry_b ∧
    tie_entry_a.downloaded_at = tie_entry_b.downloaded_at := by decide

/-- Witness for C2 applying the amended budget bound to the spec's
concrete scenario state. -/
theorem C2_evict_budget_amended_witness :
    existing_total (_cleanup_cache 100 scenario_state) ≤ 100 :=
  (C2_evict_budget_amended.1 100 scenario_state (by decide) (by decide) (by decide)).1



end Mesophy
